import Mathlib

/-!
Verification of the arbitrage-path core of the mev-templates repository.

This file is a shallow embedding of `src/rust/src/paths.rs`: the `ArbPath`
structure with its `has_pool`, `should_blacklist` and `simulate_v2_path`
methods, and the free function `generate_triangular_paths`.  Machine
integers (`U256`) are modelled as `Nat` together with the bound `U256MAX`;
the unchecked `U256` arithmetic of the source, which panics on overflow,
is modelled by explicit panic outcomes.  The types `Pool` and `Reserve`
and the function `UniswapV2Simulator::get_amount_out` live in modules of
the repository that are not part of the given sources, so they are
modelled from the specification (sections 3 and 4.1), as marked on each
of those definitions.
-/

namespace MevPaths

/-- Addresses and token identifiers (`H160` in the source) are opaque
fixed-width identifiers compared only for equality; they are modelled
as `Nat`. -/
abbrev H160 : Type := Nat

/-- Largest value representable by the 256-bit unsigned integer type
`U256` used by the source. -/
def U256MAX : Nat := 2 ^ 256 - 1

/-- Modelled from the spec: the `Pool` record of `crate::pools`, whose
source is not under src/.  Spec section 3 and 6: a unique address, two
token identifiers, each token decimal scale, and a fee numerator. -/
structure Pool where
  address : H160
  token0 : H160
  token1 : H160
  decimals0 : Nat
  decimals1 : Nat
  fee : Nat
deriving DecidableEq

/-- Modelled from the spec: the `Reserve` record of `crate::multi`, whose
source is not under src/.  Spec section 3: `reserve0`, `reserve1`,
non-negative integers in native token units. -/
structure Reserve where
  reserve0 : Nat
  reserve1 : Nat
deriving DecidableEq

/-- `ArbPath` (paths.rs lines 10-19).  `nhop` is a `u8` in the source and
is modelled as `Nat`. -/
structure ArbPath where
  nhop : Nat
  pool_1 : Pool
  pool_2 : Pool
  pool_3 : Pool
  zero_for_one_1 : Bool
  zero_for_one_2 : Bool
  zero_for_one_3 : Bool
deriving DecidableEq

/-- `ArbPath::has_pool` (paths.rs lines 22-27). -/
def has_pool (p : ArbPath) (pool : H160) : Bool :=
  let is_pool_1 := p.pool_1.address == pool
  let is_pool_2 := p.pool_2.address == pool
  let is_pool_3 := p.pool_3.address == pool
  is_pool_1 || is_pool_2 || is_pool_3

/-- The `match i { 0 => pool_1, 1 => pool_2, 2 => pool_3, _ => None }`
hop lookup used by `should_blacklist` and `simulate_v2_path`
(paths.rs lines 31-37 and 58-64). -/
def hop_pool (p : ArbPath) : Nat → Option Pool
  | 0 => some p.pool_1
  | 1 => some p.pool_2
  | 2 => some p.pool_3
  | _ => none

/-- The `match i { 0 => zero_for_one_1, ... , _ => None }` hop lookup used
by `simulate_v2_path` (paths.rs lines 65-71). -/
def hop_zero_for_one (p : ArbPath) : Nat → Option Bool
  | 0 => some p.zero_for_one_1
  | 1 => some p.zero_for_one_2
  | 2 => some p.zero_for_one_3
  | _ => none

/-- `ArbPath::should_blacklist` (paths.rs lines 29-42).  The body of the
`for i in 0..nhop` loop ends in an unconditional `return`, so at most the
iteration with i = 0 runs; the result `none` models the `.unwrap()` panic
(which cannot fire, because `hop_pool p 0` is always `some`). -/
def should_blacklist (p : ArbPath) (blacklist_tokens : List H160) : Option Bool :=
  if p.nhop = 0 then some false
  else
    match hop_pool p 0 with
    | none => none
    | some pool =>
        some (blacklist_tokens.contains pool.token0 || blacklist_tokens.contains pool.token1)

/-- The fixed fee denominator of the constant-product formula
(spec section 4.1: parts-per-thousand). -/
def FEE_DENOM : Nat := 1000

/-- Checked `U256` multiplication: `none` signals overflow. -/
def checked_mul (a b : Nat) : Option Nat :=
  if a * b ≤ U256MAX then some (a * b) else none

/-- Checked `U256` addition: `none` signals overflow. -/
def checked_add (a b : Nat) : Option Nat :=
  if a + b ≤ U256MAX then some (a + b) else none

/-- Modelled from the spec: `UniswapV2Simulator::get_amount_out` of
`crate::simulator`, whose source is not under src/.  Spec section 4.1:
`amount_in_with_fee = amount_in * (FEE_DENOM - fee)`,
`numerator = amount_in_with_fee * reserve_out`,
`denominator = reserve_in * FEE_DENOM + amount_in_with_fee`, result is
the truncating division, and the function fails (returns `none`) on a
zero denominator or on overflow of any intermediate, detected by checked
arithmetic.  The subtraction `FEE_DENOM - fee` is the saturating `Nat`
subtraction. -/
def get_amount_out (amount_in reserve_in reserve_out fee : Nat) : Option Nat :=
  match checked_mul amount_in (FEE_DENOM - fee) with
  | none => none
  | some amount_in_with_fee =>
    match checked_mul amount_in_with_fee reserve_out with
    | none => none
    | some numerator =>
      match checked_mul reserve_in FEE_DENOM with
      | none => none
      | some d =>
        match checked_add d amount_in_with_fee with
        | none => none
        | some denominator =>
          if denominator = 0 then none else some (numerator / denominator)

/-- Possible results of a `simulate_v2_path` call: a returned
`Some(amount)`, a returned `None`, or one of the two ways the source can
panic (unchecked `U256` overflow, or `.unwrap()` of `None`). -/
inductive SimOutcome where
  | panickedOverflow
  | panickedUnwrap
  | failed
  | ok (amount : Nat)
deriving DecidableEq

/-- Result of one iteration of the hop loop of `simulate_v2_path`. -/
inductive HopOutcome where
  | missingReserve
  | ammFail
  | unwrapPanic
  | next (amount : Nat)
deriving DecidableEq

/-- One iteration of the `for i in 0..nhop` loop of `simulate_v2_path`
(paths.rs lines 57-90): hop lookups, reserve lookup with the early `?`
return, direction-dependent reserve selection, and the AMM step with the
early `?` return. -/
def sim_hop (p : ArbPath) (reserves : List (H160 × Reserve)) (i amount : Nat) : HopOutcome :=
  match hop_pool p i, hop_zero_for_one p i with
  | some pool, some zero_for_one =>
    match reserves.lookup pool.address with
    | none => HopOutcome.missingReserve
    | some reserve =>
      let reserve_in := if zero_for_one then reserve.reserve0 else reserve.reserve1
      let reserve_out := if zero_for_one then reserve.reserve1 else reserve.reserve0
      match get_amount_out amount reserve_in reserve_out pool.fee with
      | none => HopOutcome.ammFail
      | some out => HopOutcome.next out
  | _, _ => HopOutcome.unwrapPanic

/-- The `for i in 0..nhop` loop of `simulate_v2_path`, iterating
`sim_hop` from hop index `i` for `rem` further iterations. -/
def sim_loop (p : ArbPath) (reserves : List (H160 × Reserve)) : Nat → Nat → Nat → SimOutcome
  | _, amount, 0 => SimOutcome.ok amount
  | i, amount, rem + 1 =>
    match sim_hop p reserves i amount with
    | HopOutcome.next out => sim_loop p reserves (i + 1) out rem
    | HopOutcome.missingReserve => SimOutcome.failed
    | HopOutcome.ammFail => SimOutcome.failed
    | HopOutcome.unwrapPanic => SimOutcome.panickedUnwrap

/-- The input-token decimal scale of a path (paths.rs lines 49-53). -/
def token_in_decimals (p : ArbPath) : Nat :=
  if p.zero_for_one_1 then p.pool_1.decimals0 else p.pool_1.decimals1

/-- `ArbPath::simulate_v2_path` (paths.rs lines 44-93).  The source
computes `U256::from(10).pow(decimals)` and `amount_in * unit` with
unchecked `U256` arithmetic, which panics on overflow; those two panics
are modelled by `SimOutcome.panickedOverflow`. -/
def simulate_v2_path (p : ArbPath) (amount_in : Nat)
    (reserves : List (H160 × Reserve)) : SimOutcome :=
  if U256MAX < 10 ^ token_in_decimals p then SimOutcome.panickedOverflow
  else if U256MAX < amount_in * 10 ^ token_in_decimals p then SimOutcome.panickedOverflow
  else sim_loop p reserves 0 (amount_in * 10 ^ token_in_decimals p) p.nhop

/-- The `unique()` count of the three pool addresses
(paths.rs lines 150-155). -/
def unique_pool_cnt (a b c : H160) : Nat :=
  ([a, b, c]).dedup.length

/-- The body of the innermost (`pool_3`) loop of
`generate_triangular_paths` (paths.rs lines 135-173): test whether the
candidate third pool can trade the token produced so far, derive the
final direction flag and output token exactly as the source does, filter
on cycle closure and address uniqueness, and build the `ArbPath`. -/
def try_path (token_out : H160) (pool_1 : Pool) (zero_for_one_1 : Bool)
    (pool_2 : Pool) (zero_for_one_2 : Bool) (token_out_2 : H160)
    (pool_3 : Pool) : Option ArbPath :=
  let can_trade_3 := (pool_3.token0 == token_out_2) || (pool_3.token1 == token_out_2)
  if can_trade_3 then
    let zero_for_one_3 := (pool_3.token0 == token_out_2) || (pool_3.token1 == token_out_2)
    let token_out_3 := if zero_for_one_3 then pool_3.token1 else pool_3.token0
    if token_out_3 == token_out then
      if unique_pool_cnt pool_1.address pool_2.address pool_3.address < 3 then
        none
      else
        some { nhop := 3, pool_1 := pool_1, pool_2 := pool_2, pool_3 := pool_3,
               zero_for_one_1 := zero_for_one_1, zero_for_one_2 := zero_for_one_2,
               zero_for_one_3 := zero_for_one_3 }
    else none
  else none

/-- `generate_triangular_paths` (paths.rs lines 96-187).  The progress
bar and timing are presentation-layer side channels (spec section 6) and
are omitted; the path accumulation order of the three nested loops is
preserved. -/
def generate_triangular_paths (pools : List Pool) (token_in : H160) : List ArbPath :=
  let token_out := token_in
  pools.flatMap (fun pool_1 =>
    let can_trade_1 := (pool_1.token0 == token_in) || (pool_1.token1 == token_in)
    if can_trade_1 then
      let zero_for_one_1 := pool_1.token0 == token_in
      let token_out_1 := if zero_for_one_1 then pool_1.token1 else pool_1.token0
      pools.flatMap (fun pool_2 =>
        let can_trade_2 := (pool_2.token0 == token_out_1) || (pool_2.token1 == token_out_1)
        if can_trade_2 then
          let zero_for_one_2 := pool_2.token0 == token_out_1
          let token_out_2 := if zero_for_one_2 then pool_2.token1 else pool_2.token0
          pools.filterMap
            (try_path token_out pool_1 zero_for_one_1 pool_2 zero_for_one_2 token_out_2)
        else [])
    else [])

/-- Claim-side helper: the output token of hop 1 when the token supplied
into hop 1 is `token_in` (the other side of `pool_1`). -/
def hop1_output_token (token_in : H160) (p : ArbPath) : H160 :=
  if p.pool_1.token0 = token_in then p.pool_1.token1 else p.pool_1.token0

/-- Claim-side helper: the output token of hop 2, whose input token is the
output token of hop 1. -/
def hop2_output_token (token_in : H160) (p : ArbPath) : H160 :=
  if p.pool_2.token0 = hop1_output_token token_in p then p.pool_2.token1 else p.pool_2.token0

/-- Claim-side helper: the actual output token of hop 3, whose input token
is the output token of hop 2. -/
def hop3_output_token (token_in : H160) (p : ArbPath) : H160 :=
  if p.pool_3.token0 = hop2_output_token token_in p then p.pool_3.token1 else p.pool_3.token0

/-! Helper lemmas shared by several claims. -/

theorem sim_loop_zero (p : ArbPath) (res : List (H160 × Reserve)) (i a : Nat) :
    sim_loop p res i a 0 = SimOutcome.ok a := rfl

theorem sim_loop_succ (p : ArbPath) (res : List (H160 × Reserve)) (i a rem : Nat) :
    sim_loop p res i a (rem + 1) =
      match sim_hop p res i a with
      | HopOutcome.next out => sim_loop p res (i + 1) out rem
      | HopOutcome.missingReserve => SimOutcome.failed
      | HopOutcome.ammFail => SimOutcome.failed
      | HopOutcome.unwrapPanic => SimOutcome.panickedUnwrap := rfl

theorem sim_hop_missing (p : ArbPath) (res : List (H160 × Reserve)) (i a : Nat)
    (pool : Pool) (zfo : Bool) (hp : hop_pool p i = some pool)
    (hz : hop_zero_for_one p i = some zfo)
    (hl : res.lookup pool.address = none) :
    sim_hop p res i a = HopOutcome.missingReserve := by
  unfold sim_hop
  rw [hp, hz]
  simp [hl]

theorem sim_hop_ne_unwrap (p : ArbPath) (res : List (H160 × Reserve)) (i a : Nat)
    (hi : i < 3) : sim_hop p res i a ≠ HopOutcome.unwrapPanic := by
  have h : i = 0 ∨ i = 1 ∨ i = 2 := by omega
  intro hcontra
  rcases h with rfl | rfl | rfl <;>
  · unfold sim_hop at hcontra
    simp only [hop_pool, hop_zero_for_one] at hcontra
    split at hcontra
    · exact HopOutcome.noConfusion hcontra
    · split at hcontra
      · exact HopOutcome.noConfusion hcontra
      · exact HopOutcome.noConfusion hcontra

theorem unique_pool_cnt_distinct {a b c : H160} (h : ¬ unique_pool_cnt a b c < 3) :
    a ≠ b ∧ a ≠ c ∧ b ≠ c := by
  unfold unique_pool_cnt at h
  have hsub := List.dedup_sublist [a, b, c]
  have hlen : ([a, b, c].dedup).length = ([a, b, c]).length := by
    have hle := hsub.length_le
    simp only [List.length_cons, List.length_nil] at hle ⊢
    omega
  have heq := hsub.eq_of_length hlen
  have hnd : ([a, b, c]).Nodup := heq ▸ List.nodup_dedup [a, b, c]
  simp only [List.nodup_cons, List.mem_cons, List.mem_singleton, List.not_mem_nil,
    or_false, not_or, List.nodup_nil, and_true] at hnd
  exact ⟨hnd.1.1, hnd.1.2, hnd.2.1⟩

/-- C7: `has_pool(addr)` returns true exactly when `addr` is the address
of one of the three pools of the path. -/
theorem c7_has_pool_iff (p : ArbPath) (addr : H160) :
    has_pool p addr = true ↔
      (addr = p.pool_1.address ∨ addr = p.pool_2.address ∨ addr = p.pool_3.address) := by
  unfold has_pool
  simp only [Bool.or_eq_true, beq_iff_eq]
  constructor
  · rintro ((h | h) | h) <;> [exact Or.inl h.symm; exact Or.inr (Or.inl h.symm);
      exact Or.inr (Or.inr h.symm)]
  · rintro (h | h | h) <;> [exact Or.inl (Or.inl h.symm); exact Or.inl (Or.inr h.symm);
      exact Or.inr h.symm]

theorem mem_of_mem_ite_nil {α : Type} {c : Prop} [Decidable c] {l : List α} {x : α}
    (h : x ∈ if c then l else []) : x ∈ l := by
  split at h
  · exact h
  · exact absurd h (List.not_mem_nil x)

theorem try_path_some {token_out : H160} {pool_1 : Pool} {zero_for_one_1 : Bool}
    {pool_2 : Pool} {zero_for_one_2 : Bool} {token_out_2 : H160} {pool_3 : Pool}
    {pr : ArbPath}
    (h : try_path token_out pool_1 zero_for_one_1 pool_2 zero_for_one_2 token_out_2 pool_3 =
      some pr) :
    pr = ⟨3, pool_1, pool_2, pool_3, zero_for_one_1, zero_for_one_2, true⟩ ∧
      pool_3.token1 = token_out ∧
      ¬ unique_pool_cnt pool_1.address pool_2.address pool_3.address < 3 := by
  unfold try_path at h
  by_cases h3 : ((pool_3.token0 == token_out_2) || (pool_3.token1 == token_out_2)) = true
  · simp only [h3, if_true] at h
    by_cases ht : (pool_3.token1 == token_out) = true
    · by_cases hcnt : unique_pool_cnt pool_1.address pool_2.address pool_3.address < 3
      · simp [ht, hcnt] at h
      · simp only [ht, if_true, if_neg hcnt] at h
        exact ⟨(Option.some.inj h).symm, by simpa using ht, hcnt⟩
    · simp [ht] at h
  · simp [h3] at h

/-- C5: every path returned by `generate_triangular_paths` has three
pairwise distinct pool addresses. -/
theorem c5_distinct_addresses (pools : List Pool) (token_in : H160) (pr : ArbPath)
    (hm : pr ∈ generate_triangular_paths pools token_in) :
    pr.pool_1.address ≠ pr.pool_2.address ∧ pr.pool_1.address ≠ pr.pool_3.address ∧
      pr.pool_2.address ≠ pr.pool_3.address := by
  unfold generate_triangular_paths at hm
  simp only [List.mem_flatMap] at hm
  obtain ⟨p1, -, hm⟩ := hm
  replace hm := mem_of_mem_ite_nil hm
  simp only [List.mem_flatMap] at hm
  obtain ⟨p2, -, hm⟩ := hm
  replace hm := mem_of_mem_ite_nil hm
  simp only [List.mem_filterMap] at hm
  obtain ⟨p3, -, hf⟩ := hm
  obtain ⟨rfl, -, hcnt⟩ := try_path_some hf
  exact unique_pool_cnt_distinct hcnt

def c5pools : List Pool :=
  [⟨10, 0, 1, 18, 18, 3⟩, ⟨11, 1, 0, 18, 18, 3⟩, ⟨12, 2, 0, 18, 18, 3⟩]

def c5path : ArbPath :=
  ⟨3, ⟨10, 0, 1, 18, 18, 3⟩, ⟨11, 1, 0, 18, 18, 3⟩, ⟨12, 2, 0, 18, 18, 3⟩, true, true, true⟩

/-- Witness for C5 at a concrete generated path. -/
theorem c5_distinct_addresses_witness :
    c5path.pool_1.address ≠ c5path.pool_2.address ∧
      c5path.pool_1.address ≠ c5path.pool_3.address ∧
      c5path.pool_2.address ≠ c5path.pool_3.address :=
  c5_distinct_addresses c5pools 0 c5path (by decide)

theorem sim_loop_missing3 (p : ArbPath) (res : List (H160 × Reserve)) (a : Nat)
    (hmiss : res.lookup p.pool_1.address = none ∨ res.lookup p.pool_2.address = none ∨
      res.lookup p.pool_3.address = none) :
    sim_loop p res 0 a 3 = SimOutcome.failed := by
  show sim_loop p res 0 a (2 + 1) = SimOutcome.failed
  rw [sim_loop_succ]
  rcases hmiss with h | h | h
  · rw [sim_hop_missing p res 0 a p.pool_1 p.zero_for_one_1 rfl rfl h]
  · cases h0 : sim_hop p res 0 a with
    | unwrapPanic => exact absurd h0 (sim_hop_ne_unwrap p res 0 a (by omega))
    | missingReserve => rfl
    | ammFail => rfl
    | next out =>
      show sim_loop p res 1 out (1 + 1) = SimOutcome.failed
      rw [sim_loop_succ, sim_hop_missing p res 1 out p.pool_2 p.zero_for_one_2 rfl rfl h]
  · cases h0 : sim_hop p res 0 a with
    | unwrapPanic => exact absurd h0 (sim_hop_ne_unwrap p res 0 a (by omega))
    | missingReserve => rfl
    | ammFail => rfl
    | next out =>
      show sim_loop p res 1 out (1 + 1) = SimOutcome.failed
      rw [sim_loop_succ]
      cases h1 : sim_hop p res 1 out with
      | unwrapPanic => exact absurd h1 (sim_hop_ne_unwrap p res 1 out (by omega))
      | missingReserve => rfl
      | ammFail => rfl
      | next out2 =>
        show sim_loop p res 2 out2 (0 + 1) = SimOutcome.failed
        rw [sim_loop_succ, sim_hop_missing p res 2 out2 p.pool_3 p.zero_for_one_3 rfl rfl h]

/-- C6 (amended): for a 3-hop path, as long as the initial scaling of the
input amount by `10 ^ decimals` does not overflow `U256` (so the source
does not panic before its first reserve lookup), a snapshot missing any
of the three pool addresses makes `simulate_v2_path` return `None`. -/
theorem c6_missing_reserve_amended (p : ArbPath) (amount_in : Nat)
    (reserves : List (H160 × Reserve))
    (h3 : p.nhop = 3)
    (hpow : 10 ^ token_in_decimals p ≤ U256MAX)
    (hscale : amount_in * 10 ^ token_in_decimals p ≤ U256MAX)
    (hmiss : reserves.lookup p.pool_1.address = none ∨
      reserves.lookup p.pool_2.address = none ∨
      reserves.lookup p.pool_3.address = none) :
    simulate_v2_path p amount_in reserves = SimOutcome.failed := by
  unfold simulate_v2_path
  rw [if_neg (Nat.not_lt.mpr hpow), if_neg (Nat.not_lt.mpr hscale), h3]
  exact sim_loop_missing3 p reserves _ hmiss

def c6path : ArbPath :=
  ⟨3, ⟨1, 0, 1, 0, 0, 3⟩, ⟨2, 1, 2, 0, 0, 3⟩, ⟨3, 2, 0, 0, 0, 3⟩, true, true, true⟩

/-- Witness for the amended C6: empty snapshot, all amounts in range. -/
theorem c6_missing_reserve_witness :
    simulate_v2_path c6path 5 [] = SimOutcome.failed :=
  c6_missing_reserve_amended c6path 5 [] rfl (by decide) (by decide) (Or.inl rfl)

def c6cexpath : ArbPath :=
  ⟨3, ⟨41, 0, 1, 1, 1, 3⟩, ⟨42, 1, 2, 18, 18, 3⟩, ⟨43, 2, 0, 18, 18, 3⟩, true, true, true⟩

/-- Counterexample to C6 as stated: the snapshot has no entry for any
pool of the path, yet with input amount `2 ^ 255` (a representable
`U256`) the source panics on the overflowing multiplication
`amount_in * 10 ^ 1` before its first reserve lookup, instead of
returning `None`. -/
theorem c6_counterexample :
    c6cexpath.nhop = 3 ∧
      ([] : List (H160 × Reserve)).lookup c6cexpath.pool_1.address = none ∧
      2 ^ 255 ≤ U256MAX ∧
      simulate_v2_path c6cexpath (2 ^ 255) [] = SimOutcome.panickedOverflow ∧
      simulate_v2_path c6cexpath (2 ^ 255) [] ≠ SimOutcome.failed := by
  refine ⟨rfl, rfl, by decide, by decide, by decide⟩

theorem get_amount_out_zero (reserve_in reserve_out fee : Nat)
    (h0 : reserve_in ≠ 0) (hb : reserve_in * FEE_DENOM ≤ U256MAX) :
    get_amount_out 0 reserve_in reserve_out fee = some 0 := by
  have hden : reserve_in * FEE_DENOM ≠ 0 := by
    have hf : FEE_DENOM ≠ 0 := by decide
    exact Nat.mul_ne_zero h0 hf
  have e1 : checked_mul 0 (FEE_DENOM - fee) = some 0 := by
    unfold checked_mul
    rw [Nat.zero_mul]
    exact if_pos (Nat.zero_le _)
  have e2 : checked_mul 0 reserve_out = some 0 := by
    unfold checked_mul
    rw [Nat.zero_mul]
    exact if_pos (Nat.zero_le _)
  have e3 : checked_mul reserve_in FEE_DENOM = some (reserve_in * FEE_DENOM) := by
    unfold checked_mul
    exact if_pos hb
  have e4 : checked_add (reserve_in * FEE_DENOM) 0 = some (reserve_in * FEE_DENOM) := by
    unfold checked_add
    rw [Nat.add_zero]
    exact if_pos hb
  unfold get_amount_out
  simp only [e1, e2, e3, e4, if_neg hden, Nat.zero_div]

theorem sim_hop_zero_next (p : ArbPath) (res : List (H160 × Reserve)) (i : Nat)
    (pool : Pool) (zfo : Bool) (r : Reserve)
    (hp : hop_pool p i = some pool) (hz : hop_zero_for_one p i = some zfo)
    (hl : res.lookup pool.address = some r)
    (h0 : r.reserve0 ≠ 0 ∧ r.reserve1 ≠ 0)
    (hb : r.reserve0 * FEE_DENOM ≤ U256MAX ∧ r.reserve1 * FEE_DENOM ≤ U256MAX) :
    sim_hop p res i 0 = HopOutcome.next 0 := by
  unfold sim_hop
  rw [hp, hz]
  cases zfo
  · simp only [hl, Bool.false_eq_true, if_neg, ite_false]
    rw [get_amount_out_zero r.reserve1 r.reserve0 pool.fee h0.2 hb.2]
  · simp only [hl, ite_true]
    rw [get_amount_out_zero r.reserve0 r.reserve1 pool.fee h0.1 hb.1]

/-- C8 (amended): for a 3-hop path whose three pools all have reserve
entries with both components nonzero, `simulate_v2_path` with input
amount zero returns `Some 0`, provided no `U256` overflow interferes:
`10 ^ decimals` of the input token fits in `U256` (otherwise the
unchecked `pow` panics) and each stored reserve times the fee
denominator 1000 fits in `U256` (otherwise the checked AMM arithmetic
signals failure). -/
theorem c8_zero_input_amended (p : ArbPath) (reserves : List (H160 × Reserve))
    (r1 r2 r3 : Reserve)
    (h3 : p.nhop = 3)
    (hl1 : reserves.lookup p.pool_1.address = some r1)
    (hl2 : reserves.lookup p.pool_2.address = some r2)
    (hl3 : reserves.lookup p.pool_3.address = some r3)
    (h01 : r1.reserve0 ≠ 0 ∧ r1.reserve1 ≠ 0)
    (h02 : r2.reserve0 ≠ 0 ∧ r2.reserve1 ≠ 0)
    (h03 : r3.reserve0 ≠ 0 ∧ r3.reserve1 ≠ 0)
    (hb1 : r1.reserve0 * FEE_DENOM ≤ U256MAX ∧ r1.reserve1 * FEE_DENOM ≤ U256MAX)
    (hb2 : r2.reserve0 * FEE_DENOM ≤ U256MAX ∧ r2.reserve1 * FEE_DENOM ≤ U256MAX)
    (hb3 : r3.reserve0 * FEE_DENOM ≤ U256MAX ∧ r3.reserve1 * FEE_DENOM ≤ U256MAX)
    (hpow : 10 ^ token_in_decimals p ≤ U256MAX) :
    simulate_v2_path p 0 reserves = SimOutcome.ok 0 := by
  unfold simulate_v2_path
  rw [if_neg (Nat.not_lt.mpr hpow), Nat.zero_mul,
    if_neg (Nat.not_lt.mpr (Nat.zero_le U256MAX)), h3]
  have s0 := sim_hop_zero_next p reserves 0 p.pool_1 p.zero_for_one_1 r1 rfl rfl hl1 h01 hb1
  have s1 := sim_hop_zero_next p reserves 1 p.pool_2 p.zero_for_one_2 r2 rfl rfl hl2 h02 hb2
  have s2 := sim_hop_zero_next p reserves 2 p.pool_3 p.zero_for_one_3 r3 rfl rfl hl3 h03 hb3
  show sim_loop p reserves 0 0 (2 + 1) = SimOutcome.ok 0
  rw [sim_loop_succ, s0]
  show sim_loop p reserves 1 0 (1 + 1) = SimOutcome.ok 0
  rw [sim_loop_succ, s1]
  show sim_loop p reserves 2 0 (0 + 1) = SimOutcome.ok 0
  rw [sim_loop_succ, s2]
  rfl

def c8path : ArbPath :=
  ⟨3, ⟨1, 0, 1, 0, 0, 3⟩, ⟨2, 1, 2, 0, 0, 3⟩, ⟨3, 2, 0, 0, 0, 3⟩, true, true, true⟩

def c8reserves : List (H160 × Reserve) := [(1, ⟨7, 9⟩), (2, ⟨7, 9⟩), (3, ⟨7, 9⟩)]

/-- Witness for the amended C8 at a concrete path and snapshot. -/
theorem c8_zero_input_witness : simulate_v2_path c8path 0 c8reserves = SimOutcome.ok 0 :=
  c8_zero_input_amended c8path c8reserves ⟨7, 9⟩ ⟨7, 9⟩ ⟨7, 9⟩ rfl rfl rfl rfl
    (by decide) (by decide) (by decide) (by decide) (by decide) (by decide) (by decide)

def c8cexpath : ArbPath :=
  ⟨3, ⟨51, 0, 1, 0, 0, 3⟩, ⟨52, 1, 2, 0, 0, 3⟩, ⟨53, 2, 0, 0, 0, 3⟩, true, true, true⟩

def c8cexreserves : List (H160 × Reserve) :=
  [(51, ⟨2 ^ 255, 2 ^ 255⟩), (52, ⟨2 ^ 255, 2 ^ 255⟩), (53, ⟨2 ^ 255, 2 ^ 255⟩)]

/-- Counterexample to C8 as stated: every pool of the path has an entry
with nonzero reserves, yet with input amount zero the simulation does
not return `Some 0`: the first hop denominator computation
`reserve_in * 1000` overflows `U256` (2 ^ 255 * 1000 exceeds `U256MAX`),
so the AMM step signals failure. -/
theorem c8_counterexample :
    c8cexpath.nhop = 3 ∧
      c8cexreserves.lookup c8cexpath.pool_1.address = some ⟨2 ^ 255, 2 ^ 255⟩ ∧
      c8cexreserves.lookup c8cexpath.pool_2.address = some ⟨2 ^ 255, 2 ^ 255⟩ ∧
      c8cexreserves.lookup c8cexpath.pool_3.address = some ⟨2 ^ 255, 2 ^ 255⟩ ∧
      (2 ^ 255 : Nat) ≠ 0 ∧
      simulate_v2_path c8cexpath 0 c8cexreserves = SimOutcome.failed ∧
      simulate_v2_path c8cexpath 0 c8cexreserves ≠ SimOutcome.ok 0 := by
  refine ⟨rfl, by decide, by decide, by decide, by decide, by decide, by decide⟩

theorem sim_loop_no_unwrap (p : ArbPath) (res : List (H160 × Reserve)) :
    ∀ rem i a, i + rem ≤ 3 → sim_loop p res i a rem ≠ SimOutcome.panickedUnwrap := by
  intro rem
  induction rem with
  | zero =>
    intro i a _
    rw [sim_loop_zero]
    exact fun h => SimOutcome.noConfusion h
  | succ n ih =>
    intro i a h
    rw [sim_loop_succ]
    cases h0 : sim_hop p res i a with
    | unwrapPanic => exact absurd h0 (sim_hop_ne_unwrap p res i a (by omega))
    | missingReserve => exact fun h => SimOutcome.noConfusion h
    | ammFail => exact fun h => SimOutcome.noConfusion h
    | next out => exact ih (i + 1) out (by omega)

theorem sim_loop_add (p : ArbPath) (res : List (H160 × Reserve)) :
    ∀ r1 i a r2, sim_loop p res i a (r1 + r2) =
      match sim_loop p res i a r1 with
      | SimOutcome.ok m => sim_loop p res (i + r1) m r2
      | other => other := by
  intro r1
  induction r1 with
  | zero =>
    intro i a r2
    rw [Nat.zero_add, sim_loop_zero]
    rfl
  | succ n ih =>
    intro i a r2
    have e : n + 1 + r2 = n + r2 + 1 := by omega
    rw [e, sim_loop_succ, sim_loop_succ]
    cases h0 : sim_hop p res i a with
    | unwrapPanic => rfl
    | missingReserve => rfl
    | ammFail => rfl
    | next out =>
      show sim_loop p res (i + 1) out (n + r2) =
        match sim_loop p res (i + 1) out n with
        | SimOutcome.ok m => sim_loop p res (i + (n + 1)) m r2
        | other => other
      rw [ih (i + 1) out r2]
      have e2 : i + 1 + n = i + (n + 1) := by omega
      rw [e2]

/-- C10 (amended): the hop-indexed lookups are total exactly on the first
three hop indices.  `should_blacklist` only ever unwraps the hop-0 lookup
(its loop body returns unconditionally), so it never panics for any
`nhop`; the `simulate_v2_path` hop loop never reaches the unwrap panic
when `nhop ≤ 3`, while for `nhop > 3` it panics on the fourth hop
whenever the first three hops all succeed. -/
theorem c10_unwrap_totality_amended (p : ArbPath) (res : List (H160 × Reserve)) :
    (∀ bl : List H160, (should_blacklist p bl).isSome = true) ∧
      (∀ a, p.nhop ≤ 3 → sim_loop p res 0 a p.nhop ≠ SimOutcome.panickedUnwrap) ∧
      (∀ a m, 3 < p.nhop → sim_loop p res 0 a 3 = SimOutcome.ok m →
        sim_loop p res 0 a p.nhop = SimOutcome.panickedUnwrap) := by
  refine ⟨?_, ?_, ?_⟩
  · intro bl
    unfold should_blacklist
    split
    · rfl
    · rfl
  · intro a h
    exact sim_loop_no_unwrap p res p.nhop 0 a (by omega)
  · intro a m h3 hok
    have e : p.nhop = 3 + (p.nhop - 3) := by omega
    rw [e, sim_loop_add, hok]
    show sim_loop p res (0 + 3) m (p.nhop - 3) = SimOutcome.panickedUnwrap
    obtain ⟨k, hk⟩ : ∃ k, p.nhop - 3 = k + 1 := ⟨p.nhop - 4, by omega⟩
    rw [hk, sim_loop_succ]
    have hsim : sim_hop p res (0 + 3) m = HopOutcome.unwrapPanic := rfl
    rw [hsim]

def c10path : ArbPath :=
  ⟨4, ⟨1, 0, 1, 0, 0, 3⟩, ⟨2, 1, 2, 0, 0, 3⟩, ⟨3, 2, 0, 0, 0, 3⟩, true, true, true⟩

def c10reserves : List (H160 × Reserve) := [(1, ⟨10, 10⟩), (2, ⟨10, 10⟩), (3, ⟨10, 10⟩)]

/-- Witness for the amended C10: a 4-hop path whose first three hops
succeed makes the loop hit the `.unwrap()` panic on hop index 3. -/
theorem c10_unwrap_totality_witness :
    (should_blacklist c10path []).isSome = true ∧
      sim_loop c10path c10reserves 0 0 c10path.nhop = SimOutcome.panickedUnwrap :=
  ⟨(c10_unwrap_totality_amended c10path c10reserves).1 [],
    (c10_unwrap_totality_amended c10path c10reserves).2.2 0 0 (by decide) (by decide)⟩

def c10cexpath : ArbPath :=
  ⟨4, ⟨61, 0, 1, 0, 0, 3⟩, ⟨62, 1, 2, 0, 0, 3⟩, ⟨63, 2, 0, 0, 0, 3⟩, true, true, true⟩

def c10cexreserves : List (H160 × Reserve) := [(61, ⟨0, 0⟩), (62, ⟨0, 0⟩), (63, ⟨0, 0⟩)]

/-- Counterexample to C10 as stated: a path with `nhop = 4` whose three
pools all have reserve entries, yet `simulate_v2_path` returns `None`
(the zero reserves make the first AMM step fail and the `?` operator
returns early) instead of panicking on the fourth hop. -/
theorem c10_counterexample :
    3 < c10cexpath.nhop ∧
      (c10cexreserves.lookup c10cexpath.pool_1.address).isSome = true ∧
      (c10cexreserves.lookup c10cexpath.pool_2.address).isSome = true ∧
      (c10cexreserves.lookup c10cexpath.pool_3.address).isSome = true ∧
      simulate_v2_path c10cexpath 0 c10cexreserves = SimOutcome.failed := by
  refine ⟨by decide, by decide, by decide, by decide, by decide⟩

def c9path : ArbPath :=
  ⟨3, ⟨71, 0, 1, 2, 2, 3⟩, ⟨72, 1, 2, 0, 0, 3⟩, ⟨73, 2, 0, 0, 0, 3⟩, true, true, true⟩

def c9reserves : List (H160 × Reserve) := [(71, ⟨1000, 1000⟩), (72, ⟨1000, 1000⟩), (73, ⟨1000, 1000⟩)]

/-- C9: the source panics instead of returning `None`: for this 3-hop
path with complete reserve data and the representable input amount
`2 ^ 254`, the initial scaling `amount_in * 10 ^ 2` is an unchecked
`U256` multiplication whose result exceeds `U256MAX`, so the source
panics with an overflow. -/
theorem c9_overflow_panics :
    c9path.nhop = 3 ∧ (2 ^ 254 : Nat) ≤ U256MAX ∧
      simulate_v2_path c9path (2 ^ 254) c9reserves = SimOutcome.panickedOverflow := by
  refine ⟨rfl, by decide, by decide⟩

def c1pools : List Pool :=
  [⟨10, 0, 1, 18, 18, 3⟩, ⟨11, 1, 0, 18, 18, 3⟩, ⟨12, 2, 0, 18, 18, 3⟩]

/-- C1 fails on the code: among the paths generated from `c1pools` with
base token 0 there is one whose stored `zero_for_one_3` is true although
the token supplied into hop 3 (the output token of hop 2) is not
`pool_3.token0` — the source derives the final flag from the
direction-agnostic can-trade test, which is identically true. -/
theorem c1_final_hop_flag_violated :
    (generate_triangular_paths c1pools 0).any
      (fun pr => pr.zero_for_one_3 && !(pr.pool_3.token0 == hop2_output_token 0 pr)) = true := by
  decide

def c2pools : List Pool :=
  [⟨20, 0, 1, 18, 18, 3⟩, ⟨21, 1, 0, 18, 18, 3⟩, ⟨22, 2, 0, 18, 18, 3⟩]

/-- C2 fails on the code: among the paths generated from `c2pools` with
base token 0 there is one whose third hop has actual output token
different from the base token, so the generated cycle does not close —
because `zero_for_one_3` is identically true, the source only ever
checks `pool_3.token1` against the base token. -/
theorem c2_cycle_not_closed :
    (generate_triangular_paths c2pools 0).any
      (fun pr => !(hop3_output_token 0 pr == 0)) = true := by
  decide

def c3p1 : Pool := ⟨31, 0, 1, 18, 18, 3⟩

def c3p2 : Pool := ⟨32, 1, 2, 18, 18, 3⟩

def c3p3 : Pool := ⟨33, 0, 2, 18, 18, 3⟩

/-- C3 fails on the code: `c3p1` trades token 0 for token 1, `c3p2`
trades token 1 for token 2, and `c3p3` trades token 2 back to token 0,
with pairwise distinct addresses — a valid 3-hop cycle — yet the
generator returns no path at all, because the identically-true
`zero_for_one_3` makes the closure filter demand `pool_3.token1 == 0`
while `c3p3` lists the base token as its `token0`. -/
theorem c3_incomplete_generation :
    (c3p1.token0 = 0 ∧ c3p1.token1 = 1) ∧
      (c3p2.token0 = 1 ∧ c3p2.token1 = 2) ∧
      (c3p3.token0 = 0 ∧ c3p3.token1 = 2) ∧
      c3p1.address ≠ c3p2.address ∧ c3p1.address ≠ c3p3.address ∧
      c3p2.address ≠ c3p3.address ∧
      generate_triangular_paths [c3p1, c3p2, c3p3] 0 = [] := by
  refine ⟨⟨rfl, rfl⟩, ⟨rfl, rfl⟩, ⟨rfl, rfl⟩, by decide, by decide, by decide, by decide⟩

def c4path : ArbPath :=
  ⟨3, ⟨1, 0, 1, 18, 18, 3⟩, ⟨2, 5, 6, 18, 18, 3⟩, ⟨3, 7, 8, 18, 18, 3⟩, true, true, true⟩

/-- C4 fails on the code: token 5 is blacklisted and touched by the
second hop of `c4path` (so the claim demands `true`), but the loop body
of `should_blacklist` ends in an unconditional `return` and only ever
inspects `pool_1`, so the source returns `false`. -/
theorem c4_blacklist_first_hop_only :
    c4path.nhop = 3 ∧ c4path.pool_2.token0 = 5 ∧
      [5].contains c4path.pool_2.token0 = true ∧
      should_blacklist c4path [5] = some false := by
  refine ⟨rfl, rfl, by decide, by decide⟩

end MevPaths
